import Mathlib

/-!
Verification development for the UK Property Search backend
(`main.py` and `scansan_client.py`).

The Python code is shallowly embedded: JSON-like dynamic values become the
`PyVal` inductive, dictionaries are association lists, Python `None` is
either `PyVal.none` (as a value) or `Option.none` (as an absent result),
integer `//` is `Int.fdiv` (floor division), and Python's stable `sorted`
is modelled by `List.insertionSort` (a stable sort; stable sorts agree
extensionally).  Network effects are passed in as explicit oracle
arguments describing the outcome of each HTTP call; a Python exception
crossing a function boundary is an `Except.error`.
-/

/-- Embedding of Python/JSON values as they appear in API payloads. -/
inductive PyVal where
  | none
  | bool (b : Bool)
  | int (n : Int)
  | str (s : String)
  | list (xs : List PyVal)
  | dict (entries : List (String × PyVal))

/-- Python truthiness (`bool(v)`): `None`, `False`, `0`, `""`, `[]`, `{}` are falsy. -/
def PyVal.truthy : PyVal → Bool
  | .none => false
  | .bool b => b
  | .int n => n != 0
  | .str s => s != ""
  | .list xs => !xs.isEmpty
  | .dict es => !es.isEmpty

/-- Python `isinstance(v, dict)`. -/
def PyVal.isDict : PyVal → Bool
  | .dict _ => true
  | _ => false

/-- Python `isinstance(v, list)`. -/
def PyVal.isList : PyVal → Bool
  | .list _ => true
  | _ => false

/-- The elements of a Python list value (empty for non-lists; used only
under an `isinstance(v, list)` guard, mirroring the source). -/
def PyVal.asList : PyVal → List PyVal
  | .list xs => xs
  | _ => []

/-- Python `d.get(key)` (default `None`).  The source only calls `.get` on
values already checked to be dictionaries. -/
def PyVal.get (v : PyVal) (key : String) : PyVal :=
  match v with
  | .dict es => (es.lookup key).getD .none
  | _ => .none

/-- Python `d.get(key, default)`. -/
def PyVal.getD (v : PyVal) (key : String) (dflt : PyVal) : PyVal :=
  match v with
  | .dict es => (es.lookup key).getD dflt
  | _ => dflt

/-- Python `str.strip()` over the whitespace characters of `Char.isWhitespace`. -/
def pyStrip (s : String) : String :=
  String.mk (((s.data.dropWhile Char.isWhitespace).reverse.dropWhile Char.isWhitespace).reverse)

/-- Python `str.upper()` (ASCII letters, which is all the source feeds it). -/
def pyUpper (s : String) : String :=
  String.mk (s.data.map Char.toUpper)

/-- Python `str.lower()` (ASCII letters, which is all the source feeds it). -/
def pyLower (s : String) : String :=
  String.mk (s.data.map Char.toLower)

/-- Whether the first list is a prefix of the second. -/
def listPrefixOf : List Char → List Char → Bool
  | [], _ => true
  | _ :: _, [] => false
  | a :: as, b :: bs => a == b && listPrefixOf as bs

/-- Whether `sub` occurs contiguously inside `hay` (the empty list occurs
in everything, as in Python). -/
def listSubstrOf (sub : List Char) : List Char → Bool
  | [] => listPrefixOf sub []
  | c :: rest => listPrefixOf sub (c :: rest) || listSubstrOf sub rest

/-- Python substring test `sub in hay` on strings. -/
def strContains (hay sub : String) : Bool :=
  listSubstrOf sub.data hay.data

/-- Python `str(v)` as used in the f-string `f"Property in \x7barea_code\x7d"`.
Container rendering is abbreviated: no modelled code path formats a
container into a string. -/
def pyStr : PyVal → String
  | .none => "None"
  | .bool true => "True"
  | .bool false => "False"
  | .int n => toString n
  | .str s => s
  | .list _ => "[...]"
  | .dict _ => "\x7b...\x7d"

/-- The canonical property record assembled by the resolver
(`main.py` lines 179-188) and stored in the mock table.  Fields a given
record's Python dict does not carry are `Option.none`; `.get` on an
absent key and on a key holding `None` both yield `None`, so collapsing
the two is sound for every modelled access. -/
structure PropRecord where
  address : String
  postcode : Option PyVal
  area : PyVal
  current_price : Option Int
  future_price : Option Int
  last_sold_price : Option Int
  last_sold_date : Option PyVal
  score : Option Int

/-- Result of `parse_api_search_response` (`main.py` lines 49-57). -/
structure ParsedSearchResult where
  search_query : PyVal
  search_found : PyVal
  area_codes : List PyVal
  boroughs : List PyVal
  wards : List PyVal
  streets : List PyVal
  postcodes : List PyVal

/-- Contribution of one item to `result["area_codes"]`
(`main.py` lines 80-84). -/
def codeItemCodes (item : PyVal) : List PyVal :=
  let area_code_info := item.getD "area_code" (.dict [])
  if area_code_info.truthy && area_code_info.isDict then
    let area_code_list := area_code_info.getD "area_code_list" (.list [])
    if area_code_list.isList then area_code_list.asList else []
  else []

/-- Contribution of one item to `result["postcodes"]`
(`main.py` lines 86-88): the district is appended only when truthy. -/
def codeItemDistricts (item : PyVal) : List PyVal :=
  let area_code_info := item.getD "area_code" (.dict [])
  if area_code_info.truthy && area_code_info.isDict then
    let district := area_code_info.get "area_code_district"
    if district.truthy then [district] else []
  else []

/-- Contribution of one item to `result["boroughs"]` (`main.py` lines 91-93). -/
def codeItemBoroughs (item : PyVal) : List PyVal :=
  let boroughs := item.getD "borough" (.list [])
  if boroughs.truthy && boroughs.isList then boroughs.asList else []

/-- Contribution of one item to `result["wards"]` (`main.py` lines 96-98). -/
def codeItemWards (item : PyVal) : List PyVal :=
  let wards := item.getD "ward" (.list [])
  if wards.truthy && wards.isList then wards.asList else []

/-- Contribution of one item to `result["streets"]` (`main.py` lines 101-105). -/
def codeItemStreets (item : PyVal) : List PyVal :=
  let street_info := item.getD "street" (.dict [])
  if street_info.truthy && street_info.isDict then
    let street_list := street_info.getD "street_list" (.list [])
    if street_list.truthy && street_list.isList then street_list.asList else []
  else []

/-- Body of the inner `for item in items` loop (`main.py` lines 75-105):
each list field of the mutable `result` is extended in place; items that
are not dictionaries are skipped. -/
def extractItem (acc : ParsedSearchResult) (item : PyVal) : ParsedSearchResult :=
  if item.isDict then
    { acc with
      area_codes := acc.area_codes ++ codeItemCodes item
      postcodes := acc.postcodes ++ codeItemDistricts item
      boroughs := acc.boroughs ++ codeItemBoroughs item
      wards := acc.wards ++ codeItemWards item
      streets := acc.streets ++ codeItemStreets item }
  else acc

/-- Body of the outer `for outer_item in data` loop (`main.py` lines 66-73):
a list is iterated, a dict is auto-wrapped as a singleton, anything else
is skipped. -/
def extractOuter (acc : ParsedSearchResult) (outer_item : PyVal) : ParsedSearchResult :=
  match outer_item with
  | .list items => items.foldl extractItem acc
  | .dict es => [PyVal.dict es].foldl extractItem acc
  | _ => acc

/-- `parse_api_search_response` (`main.py` lines 11-109).  Falsy or
non-dict input returns Python `None` (modelled `Option.none`); a dict
whose `data` field is not a list returns the freshly initialised result.
Every statement inside the source's `try` block is total on JSON-shaped
values (each operation is type-guarded), so the `except` clause is
unreachable and the extraction loop is modelled as a total fold. -/
def parse_api_search_response (api_response : PyVal) : Option ParsedSearchResult :=
  if !api_response.truthy then Option.none
  else if !api_response.isDict then Option.none
  else
    let result : ParsedSearchResult :=
      { search_query := api_response.getD "search_query" (.str "")
        search_found := api_response.getD "search_found" (.str "")
        area_codes := []
        boroughs := []
        wards := []
        streets := []
        postcodes := [] }
    match api_response.getD "data" (.list []) with
    | .list outers => some (outers.foldl extractOuter result)
    | _ => some result

/-- Candidate items of one outer element, following the claim's wording:
"treating a list as candidate items and a mapping as a singleton item
while skipping any other element". -/
def claimItemsOf : PyVal → List PyVal
  | .list xs => xs
  | .dict es => [PyVal.dict es]
  | _ => []

/-- Claim-side extraction of `area_code.area_code_list` entries of one
candidate item ("appends all area_code.area_code_list entries in
discovery order with duplicates preserved"). -/
def claimCodesOf (item : PyVal) : List PyVal :=
  match item with
  | .dict _ =>
    match item.get "area_code" with
    | .dict es =>
      match es.lookup "area_code_list" with
      | some (.list xs) => xs
      | _ => []
    | _ => []
  | _ => []

/-- Claim-side extraction of the postcode district, following the claim
as stated: "appends area_code.area_code_district as a single postcode
district", i.e. whenever the key is present. -/
def claimDistrictsStated (item : PyVal) : List PyVal :=
  match item with
  | .dict _ =>
    match item.get "area_code" with
    | .dict es =>
      match es.lookup "area_code_district" with
      | some d => [d]
      | _ => []
    | _ => []
  | _ => []

/-- Claim-side extraction of the postcode district as amended: the
district is appended only when it is present and truthy (non-empty). -/
def claimDistrictsAmended (item : PyVal) : List PyVal :=
  match item with
  | .dict _ =>
    match item.get "area_code" with
    | .dict es =>
      match es.lookup "area_code_district" with
      | some d => if d.truthy then [d] else []
      | _ => []
    | _ => []
  | _ => []

/-- Claim-side extraction of the borough entries of one candidate item. -/
def claimBoroughsOf (item : PyVal) : List PyVal :=
  match item with
  | .dict _ =>
    match item.get "borough" with
    | .list xs => xs
    | _ => []
  | _ => []

/-- Claim-side extraction of the ward entries of one candidate item. -/
def claimWardsOf (item : PyVal) : List PyVal :=
  match item with
  | .dict _ =>
    match item.get "ward" with
    | .list xs => xs
    | _ => []
  | _ => []

/-- Claim-side extraction of the `street.street_list` entries of one
candidate item. -/
def claimStreetsOf (item : PyVal) : List PyVal :=
  match item with
  | .dict _ =>
    match item.get "street" with
    | .dict es =>
      match es.lookup "street_list" with
      | some (.list xs) => xs
      | _ => []
    | _ => []
  | _ => []

/-- Current-price derivation of the resolver (`main.py` lines 168-177):
`bounded_valuation` of length at least 2 takes the floor midpoint of its
first and last elements (Python `//` is floor division); length 1 takes
the element; otherwise the code falls into `elif last_sold_price:`, a
truthiness test, so a last-sold price of `0` is not used. -/
def derive_current_price (bounded_valuation : List Int) (last_sold_price : Option Int) :
    Option Int :=
  if 2 ≤ bounded_valuation.length then
    some (Int.fdiv (bounded_valuation.headI + bounded_valuation.getLastI) 2)
  else if bounded_valuation.length = 1 then
    some bounded_valuation.headI
  else
    match last_sold_price with
    | some p => if p != 0 then some p else Option.none
    | Option.none => Option.none

/-- Tail of the postcode pattern: `\d[A-Za-z]\x7b2\x7d$`. -/
def matchDLL : List Char → Bool
  | [d, a, b] => d.isDigit && a.isAlpha && b.isAlpha
  | _ => false

/-- Tail of the postcode pattern: `\s+\d[A-Za-z]\x7b2\x7d$`. -/
def matchSpacesTail : List Char → Bool
  | [] => false
  | c :: rest => c.isWhitespace && (matchDLL rest || matchSpacesTail rest)

/-- Tail of the postcode pattern: `[A-Za-z]?\s+\d[A-Za-z]\x7b2\x7d$`. -/
def matchOptLetterTail (cs : List Char) : Bool :=
  matchSpacesTail cs ||
    (match cs with
     | c :: rest => c.isAlpha && matchSpacesTail rest
     | [] => false)

/-- Tail of the postcode pattern: `\d\x7b1,2\x7d[A-Za-z]?\s+\d[A-Za-z]\x7b2\x7d$`. -/
def matchDigitsTail : List Char → Bool
  | [] => false
  | d :: rest =>
    d.isDigit &&
      (matchOptLetterTail rest ||
        (match rest with
         | e :: rest2 => e.isDigit && matchOptLetterTail rest2
         | [] => false))

/-- Full-match of the anchored pattern
`^[A-Za-z]\x7b1,2\x7d\d\x7b1,2\x7d[A-Za-z]?\s+\d[A-Za-z]\x7b2\x7d$`
by explicit enumeration of the bounded repetitions. -/
def matchPostcodeChars : List Char → Bool
  | [] => false
  | a :: rest =>
    a.isAlpha &&
      (matchDigitsTail rest ||
        (match rest with
         | b :: rest2 => b.isAlpha && matchDigitsTail rest2
         | [] => false))

/-- `is_full_postcode` (`main.py` lines 342-354): the UK postcode regex
applied to the stripped input. -/
def is_full_postcode (text : String) : Bool :=
  matchPostcodeChars (pyStrip text).data

/-- The rejection message for full postcodes (`main.py` lines 405-408). -/
def full_postcode_error : String :=
  "Full postcodes (e.g., 'SS0 0BW', 'NG8 1BB') are not supported.\n\n" ++
    "Please use either:\n" ++
    "- Area name (e.g., 'Brixton', 'Aberdeen')\n" ++
    "- Postcode District + Street (e.g., 'SW1A' + 'Downing Street')"

/-- The rejection message for a one-sided district/street pair
(`main.py` line 412). -/
def street_pair_error : String :=
  "To search by street, you must provide BOTH the postcode district AND street name."

/-- `validate_search_input` (`main.py` lines 391-414). -/
def validate_search_input (query postcode_district street_name : String) : Option String :=
  if query != "" && is_full_postcode query then
    some full_postcode_error
  else if (postcode_district != "" && street_name == "") ||
      (street_name != "" && postcode_district == "") then
    some street_pair_error
  else Option.none

/-- Sort keys live in the integers extended with the `float('inf')`
sentinel used by the source. -/
inductive PKey where
  | fin (v : Int)
  | inf

/-- Order on sort keys: `inf` is above every integer. -/
def PKey.le : PKey → PKey → Bool
  | _, .inf => true
  | .inf, .fin _ => false
  | .fin a, .fin b => decide (a ≤ b)

/-- Key of the expression `x.get("current_price") or float('inf')`:
Python `or` takes the right operand on a falsy left operand, so both a
missing price and a price of `0` become infinity. -/
def keyAscOf : Option Int → PKey
  | some p => if p = 0 then .inf else .fin p
  | Option.none => .inf

/-- Key of the expression `x.get("current_price") or 0`: a missing price
becomes `0` (and a price of `0` stays `0`). -/
def keyDescOf : Option Int → Int
  | some p => p
  | Option.none => 0

def currentKeyAsc (p : PropRecord) : PKey := keyAscOf p.current_price

def futureKeyAsc (p : PropRecord) : PKey := keyAscOf p.future_price

def currentKeyDesc (p : PropRecord) : Int := keyDescOf p.current_price

def futureKeyDesc (p : PropRecord) : Int := keyDescOf p.future_price

/-- Key of the `Default` option, `lambda x: (x.get("current_price") is None, 0)`:
the tuple compares exactly like the boolean, i.e. like `0 < 1`. -/
def defaultKey (p : PropRecord) : PKey :=
  .fin (if p.current_price.isNone then 1 else 0)

/-- The ordering `sorted(..., key=key)` sorts by. -/
def keyRel (key : PropRecord → PKey) (a b : PropRecord) : Prop :=
  PKey.le (key a) (key b) = true

/-- The ordering `sorted(..., key=key, reverse=True)` sorts by: Python
documents `reverse=True` as reversing each comparison while keeping the
sort stable. -/
def keyRelFlip (key : PropRecord → Int) (a b : PropRecord) : Prop :=
  key b ≤ key a

instance (key : PropRecord → PKey) : DecidableRel (keyRel key) :=
  fun _ _ => instDecidableEqBool _ _

instance (key : PropRecord → Int) : DecidableRel (keyRelFlip key) :=
  fun a b => Int.decLe _ _

theorem PKey.le_total (a b : PKey) : a.le b = true ∨ b.le a = true := by
  cases a <;> cases b <;> simp [PKey.le] <;> exact Int.le_total _ _

theorem PKey.le_trans {a b c : PKey} (h1 : a.le b = true) (h2 : b.le c = true) :
    a.le c = true := by
  cases a <;> cases b <;> cases c <;> simp_all [PKey.le]
  exact Int.le_trans h1 h2

instance (key : PropRecord → PKey) : IsTotal PropRecord (keyRel key) :=
  ⟨fun a b => PKey.le_total (key a) (key b)⟩

instance (key : PropRecord → PKey) : IsTrans PropRecord (keyRel key) :=
  ⟨fun _ _ _ h1 h2 => PKey.le_trans h1 h2⟩

instance (key : PropRecord → Int) : IsTotal PropRecord (keyRelFlip key) :=
  ⟨fun a b => Int.le_total (key b) (key a)⟩

instance (key : PropRecord → Int) : IsTrans PropRecord (keyRelFlip key) :=
  ⟨fun _ _ _ h1 h2 => Int.le_trans h2 h1⟩

/-- `sort_properties` (`main.py` lines 356-389).  Python's `sorted` is a
stable sort, modelled by `List.insertionSort` (stable); `reverse=True`
is the flipped comparison, still stable.  Unrecognised options return
the copied input unchanged. -/
def sort_properties (properties : List PropRecord) (sort_option : String) :
    List PropRecord :=
  if properties.isEmpty then properties
  else if sort_option == "Default" then
    List.insertionSort (keyRel defaultKey) properties
  else if sort_option == "Current Price: Low to High" then
    List.insertionSort (keyRel currentKeyAsc) properties
  else if sort_option == "Current Price: High to Low" then
    List.insertionSort (keyRelFlip currentKeyDesc) properties
  else if sort_option == "Future Price: Low to High" then
    List.insertionSort (keyRel futureKeyAsc) properties
  else if sort_option == "Future Price: High to Low" then
    List.insertionSort (keyRelFlip futureKeyDesc) properties
  else properties

/-- Outcome of the single HTTP round-trip inside `get_search`
(`scansan_client.py` lines 47-53): the GET call itself may raise a
transport exception; otherwise a response arrives whose status check
passes or fails and whose body is JSON-parseable or not. -/
inductive HttpResult where
  | raises
  | response (ok : Bool) (jsonBody : Option PyVal)

/-- Parameter selection of `get_search` (`scansan_client.py` lines 34-45):
`area_name` (checked against `None`, not truthiness) wins over the
district/street pair; with neither combination the function returns
`None` before any network activity. -/
def search_params (area_name gbr_district gbr_street : Option String) :
    Option (List (String × String)) :=
  match area_name with
  | some a => some [("area_name", a)]
  | Option.none =>
    match gbr_district, gbr_street with
    | some d, some s => some [("gbr_district", d), ("gbr_street", s)]
    | _, _ => Option.none

/-- `check_http_status` (`scansan_client.py` lines 6-17): `raise_for_status`
raises a `RequestException` subclass exactly on a non-2xx status, and the
handler catches it and returns `False`. -/
def check_http_status : HttpResult → Bool
  | .response ok _ => ok
  | .raises => false

/-- `get_search` (`scansan_client.py` lines 20-53).  `Except.error` models
a Python exception escaping the function: the bare `rq.get` call can
raise a transport error, and `response.json()` raises a JSON decode
error on an unparseable 2xx body; neither is inside a `try`. -/
def get_search (area_name gbr_district gbr_street : Option String) (net : HttpResult) :
    Except String (Option PyVal) :=
  match search_params area_name gbr_district gbr_street with
  | Option.none => .ok Option.none
  | some _ =>
    match net with
    | .raises => .error "requests transport exception"
    | .response ok body =>
      if !(check_http_status (.response ok body)) then .ok Option.none
      else
        match body with
        | some j => .ok (some j)
        | Option.none => .error "JSONDecodeError"

/-- One entry of the current-valuations payload, typed after the schema
documented in `scansan_client.py` lines 130-137 (`property_address`,
`bounded_valuation` as a list of integers, `last_sold_price`,
`last_sold_date`). -/
structure ValEntry where
  property_address : Option String
  bounded_valuation : List Int
  last_sold_price : Option Int
  last_sold_date : PyVal

/-- A current-valuations response: a dictionary holding a `data` list
(`main.py` lines 159-160); `Option.none` stands for the `None` returned
by a failed `get_current_valuations` call, and a present response is a
non-empty dict, hence truthy. -/
structure ValuationsResp where
  data : List ValEntry

/-- The two valid query shapes of the search endpoint (spec section 3). -/
inductive SearchQuery where
  | byAreaName (name : String)
  | byDistrictAndStreet (district street : String)

/-- Mode selection of `search_properties_from_api` (`main.py` lines
131-140): district+street first, then the free-text query, then a
non-placeholder selected area, else no call at all. -/
def selectSearchMode (area query postcode_district street : String) : Option SearchQuery :=
  if postcode_district != "" && street != "" then
    some (.byDistrictAndStreet (pyUpper (pyStrip postcode_district)) (pyStrip street))
  else if query != "" then
    some (.byAreaName (pyStrip query))
  else if area != "" && area != "Anywhere in the UK" && area != "Any" then
    some (.byAreaName (pyStrip area))
  else Option.none

/-- Record assembly of the resolver loop (`main.py` lines 162-188). -/
def build_property_record (area_code : PyVal) (boroughs wards : List PyVal)
    (area : String) (val : ValEntry) : PropRecord :=
  { address := val.property_address.getD ("Property in " ++ pyStr area_code)
    postcode := some area_code
    area := boroughs.head?.getD (wards.head?.getD (.str area))
    current_price := derive_current_price val.bounded_valuation val.last_sold_price
    future_price := Option.none
    last_sold_price := val.last_sold_price
    last_sold_date := some val.last_sold_date
    score := Option.none }

/-- The `for area_code in area_codes[:6]` loop (`main.py` lines 155-188):
one valuations call per area code, at most three entries each, records
appended in discovery order. -/
def fetch_valuations (valO : PyVal → Except String (Option ValuationsResp))
    (boroughs wards : List PyVal) (area : String) :
    List PyVal → Except String (List PropRecord)
  | [] => .ok []
  | area_code :: rest => do
    let valuations ← valO area_code
    let recs :=
      match valuations with
      | some resp => (resp.data.take 3).map (build_property_record area_code boroughs wards area)
      | Option.none => []
    let tail ← fetch_valuations valO boroughs wards area rest
    .ok (recs ++ tail)

/-- `search_properties_from_api` (`main.py` lines 111-190), parameterised
by oracles for the two network calls; an oracle returning `Except.error`
models the call raising.  `if not parsed` can only fire on a `None`
parse result, since a parse result dict always has seven keys and is
truthy. -/
def search_properties_from_api (area query postcode_district street : String)
    (searchO : SearchQuery → Except String (Option PyVal))
    (valO : PyVal → Except String (Option ValuationsResp)) :
    Except String (List PropRecord) := do
  let api_response ←
    match selectSearchMode area query postcode_district street with
    | some q => searchO q
    | Option.none => Except.ok Option.none
  match api_response with
  | Option.none => .ok []
  | some resp =>
    if !resp.truthy then .ok []
    else
      match parse_api_search_response resp with
      | Option.none => .ok []
      | some parsed =>
        fetch_valuations valO parsed.boroughs parsed.wards area (parsed.area_codes.take 6)

/-- One mock record (`main.py` lines 241-292): mock dicts carry only
`address`, `area`, `score` and `current_price`. -/
def mkMock (address : String) (area : String) (score : Int) (price : Int) : PropRecord :=
  { address := address
    postcode := Option.none
    area := .str area
    current_price := some price
    future_price := Option.none
    last_sold_price := Option.none
    last_sold_date := Option.none
    score := some score }

/-- `AREA_PROPERTIES` (`main.py` lines 241-292), in source order (Python
dicts preserve insertion order, which the `Anywhere` mixing relies on). -/
def AREA_PROPERTIES : List (String × List PropRecord) :=
  [ ("London",
     [ mkMock "42 Baker Street, W1U 3BW" "London" 85 850000
     , mkMock "15 Abbey Road, NW8 9AY" "London" 78 720000
     , mkMock "221B Baker Street, NW1 6XE" "London" 92 1200000 ])
  , ("Manchester",
     [ mkMock "12 Deansgate, M3 2BY" "Manchester" 73 450000
     , mkMock "88 Oxford Road, M1 5NH" "Manchester" 68 380000
     , mkMock "5 Piccadilly, M1 1RG" "Manchester" 81 520000 ])
  , ("Birmingham",
     [ mkMock "34 New Street, B2 4RH" "Birmingham" 70 320000
     , mkMock "19 Broad Street, B1 2HF" "Birmingham" 65 290000
     , mkMock "7 Corporation Street, B4 6QB" "Birmingham" 77 410000 ])
  , ("Leeds",
     [ mkMock "25 Briggate, LS1 6HD" "Leeds" 74 340000
     , mkMock "10 The Headrow, LS1 8TL" "Leeds" 69 295000
     , mkMock "18 Park Row, LS1 5HN" "Leeds" 80 420000 ])
  , ("Glasgow",
     [ mkMock "45 Buchanan Street, G1 3HL" "Glasgow" 76 310000
     , mkMock "8 Sauchiehall Street, G2 3JD" "Glasgow" 71 275000
     , mkMock "22 George Square, G2 1DS" "Glasgow" 83 480000 ])
  , ("Edinburgh",
     [ mkMock "101 Princes Street, EH2 3AA" "Edinburgh" 88 650000
     , mkMock "12 Royal Mile, EH1 1TB" "Edinburgh" 90 780000
     , mkMock "7 Grassmarket, EH1 2HS" "Edinburgh" 79 520000 ])
  , ("Bristol",
     [ mkMock "33 Park Street, BS1 5NH" "Bristol" 75 385000
     , mkMock "14 Clifton Down, BS8 3LT" "Bristol" 82 490000
     , mkMock "9 Whiteladies Road, BS8 2PH" "Bristol" 72 355000 ])
  , ("Liverpool",
     [ mkMock "21 Bold Street, L1 4DJ" "Liverpool" 73 285000
     , mkMock "16 Lime Street, L1 1JQ" "Liverpool" 68 240000
     , mkMock "5 Hope Street, L1 9BQ" "Liverpool" 80 365000 ])
  , ("Cardiff",
     [ mkMock "18 Queen Street, CF10 2BU" "Cardiff" 74 295000
     , mkMock "7 St Mary Street, CF10 1AT" "Cardiff" 69 260000
     , mkMock "25 Cathedral Road, CF11 9LL" "Cardiff" 81 420000 ])
  , ("Belfast",
     [ mkMock "12 Royal Avenue, BT1 1DA" "Belfast" 72 245000
     , mkMock "8 Donegall Place, BT1 5AJ" "Belfast" 67 215000
     , mkMock "31 Botanic Avenue, BT7 1JG" "Belfast" 78 310000 ]) ]

/-- The mock-data fallback of `search_properties` (`main.py` lines
221-238): the table row for the selected area label, the first six
records across all areas for a placeholder label, else nothing; then the
case-insensitive address substring filter when a query is given. -/
def mock_fallback (area query : String) : List PropRecord :=
  let properties :=
    match AREA_PROPERTIES.lookup area with
    | some props => props
    | Option.none =>
      if area == "Anywhere in the UK" || area == "Any" || area == "" then
        ((AREA_PROPERTIES.map Prod.snd).flatten).take 6
      else []
  if query != "" && !properties.isEmpty then
    properties.filter (fun p => strContains (pyLower p.address) (pyLower (pyStrip query)))
  else properties

/-- `search_properties` (`main.py` lines 193-238): the live path inside
`try`, any exception swallowed, and the mock fallback when the live path
raises or yields no records. -/
def search_properties (area query postcode_district street : String)
    (searchO : SearchQuery → Except String (Option PyVal))
    (valO : PyVal → Except String (Option ValuationsResp)) : List PropRecord :=
  match search_properties_from_api area query postcode_district street searchO valO with
  | .ok props => if !props.isEmpty then props else mock_fallback area query
  | .error _ => mock_fallback area query

/-- Records tied under the comparison a given sort option uses (equal
sort keys); options that do not sort tie everything. -/
def sortTied (sort_option : String) (a b : PropRecord) : Prop :=
  if sort_option == "Default" then defaultKey a = defaultKey b
  else if sort_option == "Current Price: Low to High" then currentKeyAsc a = currentKeyAsc b
  else if sort_option == "Current Price: High to Low" then currentKeyDesc a = currentKeyDesc b
  else if sort_option == "Future Price: Low to High" then futureKeyAsc a = futureKeyAsc b
  else if sort_option == "Future Price: High to Low" then futureKeyDesc a = futureKeyDesc b
  else True

/-- A record with no current price (missing sort key). -/
def recNoPrice : PropRecord :=
  { address := "no price"
    postcode := Option.none
    area := .str ""
    current_price := Option.none
    future_price := Option.none
    last_sold_price := Option.none
    last_sold_date := Option.none
    score := Option.none }

/-- A record with the given current price. -/
def recPrice (n : Int) : PropRecord :=
  { address := "priced"
    postcode := Option.none
    area := .str ""
    current_price := some n
    future_price := Option.none
    last_sold_price := Option.none
    last_sold_date := Option.none
    score := Option.none }

/-! Helper lemmas shared by several claims. -/

theorem sort_properties_default_eq (l : List PropRecord) :
    sort_properties l "Default" = List.insertionSort (keyRel defaultKey) l := by
  cases l <;> rfl

theorem sort_properties_curAsc_eq (l : List PropRecord) :
    sort_properties l "Current Price: Low to High" =
      List.insertionSort (keyRel currentKeyAsc) l := by
  cases l <;> rfl

theorem sort_properties_curDesc_eq (l : List PropRecord) :
    sort_properties l "Current Price: High to Low" =
      List.insertionSort (keyRelFlip currentKeyDesc) l := by
  cases l <;> rfl

theorem sort_properties_futAsc_eq (l : List PropRecord) :
    sort_properties l "Future Price: Low to High" =
      List.insertionSort (keyRel futureKeyAsc) l := by
  cases l <;> rfl

theorem sort_properties_futDesc_eq (l : List PropRecord) :
    sort_properties l "Future Price: High to Low" =
      List.insertionSort (keyRelFlip futureKeyDesc) l := by
  cases l <;> rfl

/-- C4: Query-mode priority: for every combination of inputs, the
resolver selects exactly one mode in this order: district+street (even
when a free-text query is also supplied), else the free-text query as
area name, else a non-placeholder selected area as area name, else an
empty result with no call made (the result does not depend on either
network oracle). -/
theorem c4_mode_priority (area query postcode_district street : String)
    (searchO : SearchQuery → Except String (Option PyVal))
    (valO : PyVal → Except String (Option ValuationsResp)) :
    (postcode_district ≠ "" → street ≠ "" →
      selectSearchMode area query postcode_district street =
        some (.byDistrictAndStreet (pyUpper (pyStrip postcode_district)) (pyStrip street))) ∧
    ((postcode_district = "" ∨ street = "") → query ≠ "" →
      selectSearchMode area query postcode_district street =
        some (.byAreaName (pyStrip query))) ∧
    ((postcode_district = "" ∨ street = "") → query = "" →
      ¬(area = "" ∨ area = "Anywhere in the UK" ∨ area = "Any") →
      selectSearchMode area query postcode_district street =
        some (.byAreaName (pyStrip area))) ∧
    ((postcode_district = "" ∨ street = "") → query = "" →
      (area = "" ∨ area = "Anywhere in the UK" ∨ area = "Any") →
      selectSearchMode area query postcode_district street = Option.none) ∧
    (selectSearchMode area query postcode_district street = Option.none →
      search_properties_from_api area query postcode_district street searchO valO =
        .ok []) := by
  refine ⟨?_, ?_, ?_, ?_, ?_⟩
  · intro hd hs
    simp [selectSearchMode, hd, hs]
  · intro hds hq
    rcases hds with h | h <;>
      simp [selectSearchMode, h, hq]
  · intro hds hq harea
    push_neg at harea
    obtain ⟨h1, h2, h3⟩ := harea
    rcases hds with h | h <;>
      simp [selectSearchMode, h, hq, h1, h2, h3]
  · intro hds hq harea
    rcases hds with h | h <;> rcases harea with ha | ha | ha <;>
      simp [selectSearchMode, h, hq, ha]
  · intro h
    simp only [search_properties_from_api, h]
    rfl

/-- C4 witness: the spec's own example (district and street present win
over a free-text query), and the no-mode case yields an empty result
even when both oracles would raise. -/
theorem c4_witness :
    selectSearchMode "London" "Brixton" "SW1A" "Downing Street" =
      some (SearchQuery.byDistrictAndStreet "SW1A" "Downing Street") ∧
    search_properties_from_api "Any" "" "" ""
      (fun _ => .error "boom") (fun _ => .error "boom") = .ok [] := by
  constructor
  · have h := (c4_mode_priority "London" "Brixton" "SW1A" "Downing Street"
      (fun _ => .error "boom") (fun _ => .error "boom")).1 (by decide) (by decide)
    rw [h]
    rfl
  · exact (c4_mode_priority "Any" "" "" "" _ _).2.2.2.2 (by rfl)

/-- C2 counterexample: with a valid identifier (`area_name`) and a 2xx
response whose body is not parseable JSON, `get_search` raises (the bare
`response.json()` call) instead of returning the no-result sentinel, so
the operation does not never-raise as claimed. -/
theorem c2_counterexample :
    get_search (some "Brixton") Option.none Option.none
      (HttpResult.response true Option.none) = .error "JSONDecodeError" := rfl

/-- C2 as amended: `get_search` returns the sentinel when the required
identifier combination is absent (independently of the network, i.e. no
call is made) or when the HTTP status check fails; it returns the parsed
payload on a parseable 2xx body; but a transport error raised by the GET
call itself, or a JSON parse failure of a 2xx body, propagates as an
exception rather than being converted to the sentinel. -/
theorem c2_gateway_amended (area_name gbr_district gbr_street : Option String)
    (net : HttpResult) (body : Option PyVal) (j : PyVal) :
    ((area_name = Option.none ∧ (gbr_district = Option.none ∨ gbr_street = Option.none)) →
      get_search area_name gbr_district gbr_street net = .ok Option.none) ∧
    ((area_name ≠ Option.none ∨ (gbr_district ≠ Option.none ∧ gbr_street ≠ Option.none)) →
      get_search area_name gbr_district gbr_street (.response false body) = .ok Option.none) ∧
    ((area_name ≠ Option.none ∨ (gbr_district ≠ Option.none ∧ gbr_street ≠ Option.none)) →
      get_search area_name gbr_district gbr_street (.response true (some j)) = .ok (some j)) ∧
    ((area_name ≠ Option.none ∨ (gbr_district ≠ Option.none ∧ gbr_street ≠ Option.none)) →
      get_search area_name gbr_district gbr_street (.response true Option.none) =
        .error "JSONDecodeError") ∧
    ((area_name ≠ Option.none ∨ (gbr_district ≠ Option.none ∧ gbr_street ≠ Option.none)) →
      get_search area_name gbr_district gbr_street .raises =
        .error "requests transport exception") := by
  cases area_name <;> cases gbr_district <;> cases gbr_street <;>
    simp [get_search, search_params, check_http_status]

/-- C2 witness: an absent identifier combination yields the sentinel even
when the network would raise, and a parseable 2xx body is returned. -/
theorem c2_witness :
    get_search Option.none Option.none Option.none HttpResult.raises = .ok Option.none ∧
    get_search (some "Brixton") Option.none Option.none
      (HttpResult.response true (some (.str "payload"))) = .ok (some (.str "payload")) := by
  constructor
  · exact (c2_gateway_amended Option.none Option.none Option.none HttpResult.raises
      Option.none (.str "payload")).1 ⟨rfl, Or.inl rfl⟩
  · exact (c2_gateway_amended (some "Brixton") Option.none Option.none HttpResult.raises
      Option.none (.str "payload")).2.2.1 (Or.inl (by decide))

/-- C1 counterexample: with an empty `bounded_valuation` and a present
`last_sold_price` of `0`, the derived current price is `None`, not the
present last-sold price, because the source tests `elif last_sold_price:`
(truthiness), so the claim's unconditional fallback-when-present fails. -/
theorem c1_counterexample :
    derive_current_price [] (some 0) ≠ some 0 ∧
    derive_current_price [] (some 0) = Option.none := by
  constructor <;> decide

/-- C1 as amended: for a `bounded_valuation` of length at least two the
current price is the floor midpoint of the first and last elements; for
length one it is that element; for an empty sequence it falls back to
`last_sold_price` only when that is present and non-zero, and is `None`
when `last_sold_price` is absent or zero.  The resolver's record carries
exactly this derivation. -/
theorem c1_current_price_amended (v0 p : Int) (vs : List Int) (lsp : Option Int)
    (area_code : PyVal) (boroughs wards : List PyVal) (area : String) (val : ValEntry) :
    (vs ≠ [] →
      derive_current_price (v0 :: vs) lsp =
        some (Int.fdiv (v0 + (v0 :: vs).getLast (List.cons_ne_nil v0 vs)) 2)) ∧
    (derive_current_price [v0] lsp = some v0) ∧
    (derive_current_price [] (some p) = if p = 0 then Option.none else some p) ∧
    (derive_current_price [] Option.none = Option.none) ∧
    ((build_property_record area_code boroughs wards area val).current_price =
      derive_current_price val.bounded_valuation val.last_sold_price) := by
  refine ⟨?_, ?_, ?_, rfl, rfl⟩
  · intro hvs
    cases vs with
    | nil => exact absurd rfl hvs
    | cons a l =>
      have hlast : (v0 :: a :: l).getLastI =
          (v0 :: a :: l).getLast (List.cons_ne_nil v0 (a :: l)) := by
        rw [List.getLastI_eq_getLast?, List.getLast?_eq_getLast _ (List.cons_ne_nil _ _)]
      have h2 : 2 ≤ (v0 :: a :: l).length := by
        simp [List.length_cons]
      simp [derive_current_price, h2, List.headI, hlast]
  · simp [derive_current_price, List.headI]
  · by_cases hp : p = 0 <;> simp [derive_current_price, hp]

/-- C1 witness: concrete evaluations of the amended derivation. -/
theorem c1_witness :
    derive_current_price [100, 201] Option.none = some 150 ∧
    derive_current_price [7] Option.none = some 7 ∧
    derive_current_price [] (some 5) = some 5 := by
  refine ⟨?_, ?_, ?_⟩
  · have h := (c1_current_price_amended 100 5 [201] Option.none
      (.str "x") [] [] "x" ⟨Option.none, [], Option.none, .none⟩).1 (by decide)
    simpa using h
  · exact (c1_current_price_amended 7 5 [] Option.none
      (.str "x") [] [] "x" ⟨Option.none, [], Option.none, .none⟩).2.1
  · have h := (c1_current_price_amended 7 5 [] Option.none
      (.str "x") [] [] "x" ⟨Option.none, [], Option.none, .none⟩).2.2.1
    simpa using h

/-- C9: a last-sold price of zero is treated as absent: a valuation entry
with an empty (or missing, which parses to empty) `bounded_valuation`
and `last_sold_price = 0` yields a property record whose current price
is `None`, not `0`, since the fallback requires truthiness. -/
theorem c9_zero_last_sold_price (area_code : PyVal) (boroughs wards : List PyVal)
    (area : String) (pa : Option String) (date : PyVal) :
    (build_property_record area_code boroughs wards area
        ⟨pa, [], some 0, date⟩).current_price = Option.none ∧
    (build_property_record area_code boroughs wards area
        ⟨pa, [], some 0, date⟩).current_price ≠ some 0 := by
  constructor <;> simp [build_property_record, derive_current_price]

/-- C3 counterexample: for absent input (Python `None`) and for a
non-mapping input, the parser returns `None`, not a result object whose
list fields are all empty. -/
theorem c3_counterexample :
    (parse_api_search_response PyVal.none).isSome = false ∧
    (parse_api_search_response (PyVal.int 5)).isSome = false := ⟨rfl, rfl⟩

/-- C3 as amended: the parser never raises (it is total by construction);
for falsy input (absent, empty mapping, etc.) or non-mapping input it
returns the `None` sentinel; for a truthy mapping whose `data` field is
not a list it returns a result object whose list fields are all empty. -/
theorem c3_parser_totality_amended (v : PyVal) :
    (v.truthy = false → parse_api_search_response v = Option.none) ∧
    (v.isDict = false → parse_api_search_response v = Option.none) ∧
    (v.truthy = true → v.isDict = true → (v.getD "data" (.list [])).isList = false →
      ∃ r, parse_api_search_response v = some r ∧
        r.area_codes = [] ∧ r.boroughs = [] ∧ r.wards = [] ∧
        r.streets = [] ∧ r.postcodes = []) := by
  refine ⟨?_, ?_, ?_⟩
  · intro h
    simp [parse_api_search_response, h]
  · intro h
    by_cases ht : v.truthy
    · simp [parse_api_search_response, ht, h]
    · simp [parse_api_search_response, ht]
  · intro ht hd hnl
    match hdata : v.getD "data" (.list []) with
    | .list outers => rw [hdata] at hnl; simp [PyVal.isList] at hnl
    | .none | .bool _ | .int _ | .str _ | .dict _ =>
      exact ⟨{ search_query := v.getD "search_query" (.str "")
               search_found := v.getD "search_found" (.str "")
               area_codes := [], boroughs := [], wards := []
               streets := [], postcodes := [] },
        by simp [parse_api_search_response, ht, hd, hdata], rfl, rfl, rfl, rfl, rfl⟩

/-- C3 witness: a truthy mapping with a non-list `data` field yields the
all-empty result object, and a non-mapping input yields the sentinel. -/
theorem c3_witness :
    (∃ r, parse_api_search_response (.dict [("data", .str "oops")]) = some r ∧
      r.area_codes = [] ∧ r.boroughs = [] ∧ r.wards = [] ∧
      r.streets = [] ∧ r.postcodes = []) ∧
    parse_api_search_response (.str "not a mapping") = Option.none := by
  constructor
  · exact (c3_parser_totality_amended (.dict [("data", .str "oops")])).2.2 rfl rfl rfl
  · exact (c3_parser_totality_amended (.str "not a mapping")).2.1 rfl

/-! Bridging lemmas: the per-item contributions of the source loop agree
with the claim-side per-item extraction (with the amended truthiness
guard on the district). -/

theorem item_codes_bridge (item : PyVal) :
    (if item.isDict then codeItemCodes item else []) = claimCodesOf item := by
  cases item with
  | dict es =>
    simp only [PyVal.isDict, if_pos, claimCodesOf, codeItemCodes, PyVal.getD, PyVal.get]
    cases h : es.lookup "area_code" with
    | none => simp [PyVal.truthy]
    | some w =>
      cases w with
      | dict fs =>
        cases fs with
        | nil => simp [PyVal.truthy, PyVal.isDict]
        | cons f fs =>
          simp only [Option.getD_some, PyVal.truthy, PyVal.isDict, List.isEmpty_cons,
            Bool.not_false, Bool.and_true, if_pos]
          cases h2 : (f :: fs).lookup "area_code_list" with
          | none => simp [PyVal.isList, PyVal.asList]
          | some u => cases u <;> simp [PyVal.isList, PyVal.asList]
      | none => simp [PyVal.truthy, PyVal.isDict]
      | bool b => cases b <;> simp [PyVal.truthy, PyVal.isDict]
      | int n => by_cases hn : n = 0 <;> simp [PyVal.truthy, PyVal.isDict, hn]
      | str s => by_cases hs : s = "" <;> simp [PyVal.truthy, PyVal.isDict, hs]
      | list xs => cases xs <;> simp [PyVal.truthy, PyVal.isDict]
  | none | bool _ | int _ | str _ | list _ => simp [PyVal.isDict, claimCodesOf]

theorem item_districts_bridge (item : PyVal) :
    (if item.isDict then codeItemDistricts item else []) = claimDistrictsAmended item := by
  cases item with
  | dict es =>
    simp only [PyVal.isDict, if_pos, claimDistrictsAmended, codeItemDistricts,
      PyVal.getD, PyVal.get]
    cases h : es.lookup "area_code" with
    | none => simp [PyVal.truthy]
    | some w =>
      cases w with
      | dict fs =>
        cases fs with
        | nil => simp [PyVal.truthy, PyVal.isDict]
        | cons f fs =>
          simp only [Option.getD_some, PyVal.truthy, PyVal.isDict, List.isEmpty_cons,
            Bool.not_false, Bool.and_true, if_pos]
          cases h2 : (f :: fs).lookup "area_code_district" with
          | none => simp [PyVal.truthy]
          | some u => simp
      | none => simp [PyVal.truthy, PyVal.isDict]
      | bool b => cases b <;> simp [PyVal.truthy, PyVal.isDict]
      | int n => by_cases hn : n = 0 <;> simp [PyVal.truthy, PyVal.isDict, hn]
      | str s => by_cases hs : s = "" <;> simp [PyVal.truthy, PyVal.isDict, hs]
      | list xs => cases xs <;> simp [PyVal.truthy, PyVal.isDict]
  | none | bool _ | int _ | str _ | list _ => simp [PyVal.isDict, claimDistrictsAmended]

theorem item_boroughs_bridge (item : PyVal) :
    (if item.isDict then codeItemBoroughs item else []) = claimBoroughsOf item := by
  cases item with
  | dict es =>
    simp only [PyVal.isDict, if_pos, claimBoroughsOf, codeItemBoroughs, PyVal.getD, PyVal.get]
    cases h : es.lookup "borough" with
    | none => simp [PyVal.truthy, PyVal.isList, PyVal.asList]
    | some u => cases u with
      | list xs => cases xs <;> simp [PyVal.truthy, PyVal.isList, PyVal.asList]
      | none | bool _ | int _ | str _ | dict _ =>
        simp [PyVal.truthy, PyVal.isList, PyVal.asList]
  | none | bool _ | int _ | str _ | list _ => simp [PyVal.isDict, claimBoroughsOf]

theorem item_wards_bridge (item : PyVal) :
    (if item.isDict then codeItemWards item else []) = claimWardsOf item := by
  cases item with
  | dict es =>
    simp only [PyVal.isDict, if_pos, claimWardsOf, codeItemWards, PyVal.getD, PyVal.get]
    cases h : es.lookup "ward" with
    | none => simp [PyVal.truthy, PyVal.isList, PyVal.asList]
    | some u => cases u with
      | list xs => cases xs <;> simp [PyVal.truthy, PyVal.isList, PyVal.asList]
      | none | bool _ | int _ | str _ | dict _ =>
        simp [PyVal.truthy, PyVal.isList, PyVal.asList]
  | none | bool _ | int _ | str _ | list _ => simp [PyVal.isDict, claimWardsOf]

theorem item_streets_bridge (item : PyVal) :
    (if item.isDict then codeItemStreets item else []) = claimStreetsOf item := by
  cases item with
  | dict es =>
    simp only [PyVal.isDict, if_pos, claimStreetsOf, codeItemStreets, PyVal.getD, PyVal.get]
    cases h : es.lookup "street" with
    | none => simp [PyVal.truthy]
    | some w =>
      cases w with
      | dict fs =>
        cases fs with
        | nil => simp [PyVal.truthy, PyVal.isDict]
        | cons f fs =>
          simp only [Option.getD_some, PyVal.truthy, PyVal.isDict, List.isEmpty_cons,
            Bool.not_false, Bool.and_true, if_pos]
          cases h2 : (f :: fs).lookup "street_list" with
          | none => simp [PyVal.truthy, PyVal.isList, PyVal.asList]
          | some u => cases u with
            | list xs => cases xs <;> simp [PyVal.truthy, PyVal.isList, PyVal.asList]
            | none | bool _ | int _ | str _ | dict _ =>
              simp [PyVal.truthy, PyVal.isList, PyVal.asList]
      | none => simp [PyVal.truthy, PyVal.isDict]
      | bool b => cases b <;> simp [PyVal.truthy, PyVal.isDict]
      | int n => by_cases hn : n = 0 <;> simp [PyVal.truthy, PyVal.isDict, hn]
      | str s => by_cases hs : s = "" <;> simp [PyVal.truthy, PyVal.isDict, hs]
      | list xs => cases xs <;> simp [PyVal.truthy, PyVal.isDict]
  | none | bool _ | int _ | str _ | list _ => simp [PyVal.isDict, claimStreetsOf]

/-- One step of the inner loop in claim-side form. -/
theorem extractItem_spec (acc : ParsedSearchResult) (item : PyVal) :
    extractItem acc item =
      { acc with
        area_codes := acc.area_codes ++ claimCodesOf item
        postcodes := acc.postcodes ++ claimDistrictsAmended item
        boroughs := acc.boroughs ++ claimBoroughsOf item
        wards := acc.wards ++ claimWardsOf item
        streets := acc.streets ++ claimStreetsOf item } := by
  rw [← item_codes_bridge, ← item_districts_bridge, ← item_boroughs_bridge,
    ← item_wards_bridge, ← item_streets_bridge]
  by_cases h : item.isDict = true
  · simp [extractItem, h]
  · simp only [Bool.not_eq_true] at h
    simp [extractItem, h]

/-- The inner loop in claim-side form. -/
theorem foldl_extractItem_spec (items : List PyVal) (acc : ParsedSearchResult) :
    items.foldl extractItem acc =
      { acc with
        area_codes := acc.area_codes ++ items.flatMap claimCodesOf
        postcodes := acc.postcodes ++ items.flatMap claimDistrictsAmended
        boroughs := acc.boroughs ++ items.flatMap claimBoroughsOf
        wards := acc.wards ++ items.flatMap claimWardsOf
        streets := acc.streets ++ items.flatMap claimStreetsOf } := by
  induction items generalizing acc with
  | nil => simp
  | cons i is ih =>
    rw [List.foldl_cons, extractItem_spec, ih]
    simp [List.flatMap_cons, List.append_assoc]

/-- The outer loop body in claim-side form. -/
theorem extractOuter_spec (acc : ParsedSearchResult) (outer_item : PyVal) :
    extractOuter acc outer_item =
      { acc with
        area_codes := acc.area_codes ++ (claimItemsOf outer_item).flatMap claimCodesOf
        postcodes := acc.postcodes ++ (claimItemsOf outer_item).flatMap claimDistrictsAmended
        boroughs := acc.boroughs ++ (claimItemsOf outer_item).flatMap claimBoroughsOf
        wards := acc.wards ++ (claimItemsOf outer_item).flatMap claimWardsOf
        streets := acc.streets ++ (claimItemsOf outer_item).flatMap claimStreetsOf } := by
  cases outer_item with
  | list items => simpa [extractOuter, claimItemsOf] using foldl_extractItem_spec items acc
  | dict es => simpa [extractOuter, claimItemsOf] using foldl_extractItem_spec [PyVal.dict es] acc
  | none | bool _ | int _ | str _ => simp [extractOuter, claimItemsOf]

/-- The outer loop in claim-side form. -/
theorem foldl_extractOuter_spec (outers : List PyVal) (acc : ParsedSearchResult) :
    outers.foldl extractOuter acc =
      { acc with
        area_codes :=
          acc.area_codes ++ (outers.flatMap claimItemsOf).flatMap claimCodesOf
        postcodes :=
          acc.postcodes ++ (outers.flatMap claimItemsOf).flatMap claimDistrictsAmended
        boroughs :=
          acc.boroughs ++ (outers.flatMap claimItemsOf).flatMap claimBoroughsOf
        wards :=
          acc.wards ++ (outers.flatMap claimItemsOf).flatMap claimWardsOf
        streets :=
          acc.streets ++ (outers.flatMap claimItemsOf).flatMap claimStreetsOf } := by
  induction outers generalizing acc with
  | nil => simp
  | cons o os ih =>
    rw [List.foldl_cons, extractOuter_spec, ih]
    simp [List.flatMap_cons, List.append_assoc]

/-- C8 counterexample: a present but empty (falsy) `area_code_district`
is skipped by the source (`if district:`), while the claim's algorithm
appends it unconditionally, so the extraction algorithm as stated does
not match the code. -/
theorem c8_counterexample :
    (parse_api_search_response
        (.dict [("data", .list [.list [.dict [("area_code",
          .dict [("area_code_district", .str "")])]]])])).map
      ParsedSearchResult.postcodes = some [] ∧
    (([PyVal.list [.dict [("area_code", .dict [("area_code_district", .str "")])]]
        ].flatMap claimItemsOf).flatMap claimDistrictsStated) = [.str ""] := by
  constructor <;> rfl

/-- C8 as amended: for every mapping input whose `data` field is a list,
the parser's five list fields equal the claim-side extraction — outer
lists iterated, mappings auto-wrapped, other elements skipped; per
mapping item all `area_code.area_code_list` entries, the
`area_code.area_code_district` when present and truthy, all borough and
ward list entries, and all `street.street_list` entries, in discovery
order with duplicates preserved.  No exception can occur during
extraction of JSON-shaped values (the embedding is total), making the
partial-result clause vacuous. -/
theorem c8_parser_algorithm_amended (es : List (String × PyVal)) (outers : List PyVal)
    (hdata : es.lookup "data" = some (.list outers)) :
    parse_api_search_response (.dict es) =
      some
        { search_query := (PyVal.dict es).getD "search_query" (.str "")
          search_found := (PyVal.dict es).getD "search_found" (.str "")
          area_codes := (outers.flatMap claimItemsOf).flatMap claimCodesOf
          boroughs := (outers.flatMap claimItemsOf).flatMap claimBoroughsOf
          wards := (outers.flatMap claimItemsOf).flatMap claimWardsOf
          streets := (outers.flatMap claimItemsOf).flatMap claimStreetsOf
          postcodes := (outers.flatMap claimItemsOf).flatMap claimDistrictsAmended } := by
  have hne : es ≠ [] := by
    intro h
    rw [h] at hdata
    simp [List.lookup] at hdata
  have ht : (PyVal.dict es).truthy = true := by
    simp [PyVal.truthy, List.isEmpty_eq_true, hne]
  have hgd : (PyVal.dict es).getD "data" (.list []) = .list outers := by
    simp [PyVal.getD, hdata]
  simp only [parse_api_search_response, ht, Bool.not_true, Bool.false_eq_true, if_false,
    PyVal.isDict, hgd]
  rw [foldl_extractOuter_spec]
  simp

/-- C8 witness: a concrete nested payload with a duplicate area code, a
flat (auto-wrapped) mapping, a skipped scalar element, and a truthy
district, extracted exactly as the amended algorithm states. -/
theorem c8_witness :
    parse_api_search_response
        (.dict [("search_query", .str "Brixton"),
                ("data", .list
                  [ .list [ .dict [("area_code", .dict
                      [("area_code_district", .str "SW2"),
                       ("area_code_list", .list [.str "SW20AA", .str "SW20AA"])]),
                      ("borough", .list [.str "Lambeth"]),
                      ("ward", .list [.str "Brixton Hill"]),
                      ("street", .dict [("street_list", .list [.str "Acre Lane"])])],
                      .int 7 ],
                    .dict [("borough", .list [.str "Southwark"])],
                    .str "skipped" ])]) =
      some
        { search_query := .str "Brixton"
          search_found := .str ""
          area_codes := [.str "SW20AA", .str "SW20AA"]
          boroughs := [.str "Lambeth", .str "Southwark"]
          wards := [.str "Brixton Hill"]
          streets := [.str "Acre Lane"]
          postcodes := [.str "SW2"] } := by
  rw [c8_parser_algorithm_amended _ _ (by rfl)]
  rfl

/-- C5 counterexample: with the placeholder label "Anywhere in the UK"
(which has no row in the mock table) and a live search that resolves
zero area codes, the fallback returns the query-filtered first-six mix
of all areas — a non-empty sequence — not the empty sequence the claim
requires for labels absent from the table. -/
theorem c5_counterexample :
    AREA_PROPERTIES.lookup "Anywhere in the UK" = Option.none ∧
    search_properties "Anywhere in the UK" "Baker" "" ""
        (fun _ => .ok (some (.dict [("data", .list [])])))
        (fun _ => .ok Option.none) =
      [ mkMock "42 Baker Street, W1U 3BW" "London" 85 850000
      , mkMock "221B Baker Street, NW1 6XE" "London" 92 1200000 ] := by
  constructor <;> rfl

/-- C5 as amended: `search_properties` never propagates an exception; if
the live path raises or yields zero records it falls back to the mock
table for the originally-selected area label filtered by the query —
the table's row when the label is a key, the first six records across
all areas when the label is a placeholder, else the empty sequence — and
it returns the live records unchanged when there are any.  In
particular, a search response that parses to zero area codes always
takes the mock fallback. -/
theorem c5_mock_fallback_amended (area query postcode_district street : String)
    (searchO : SearchQuery → Except String (Option PyVal))
    (valO : PyVal → Except String (Option ValuationsResp))
    (e : String) (props : List PropRecord) (q : SearchQuery)
    (resp : PyVal) (parsed : ParsedSearchResult) :
    (search_properties_from_api area query postcode_district street searchO valO =
        .error e →
      search_properties area query postcode_district street searchO valO =
        mock_fallback area query) ∧
    (search_properties_from_api area query postcode_district street searchO valO =
        .ok [] →
      search_properties area query postcode_district street searchO valO =
        mock_fallback area query) ∧
    (search_properties_from_api area query postcode_district street searchO valO =
        .ok props → props ≠ [] →
      search_properties area query postcode_district street searchO valO = props) ∧
    (selectSearchMode area query postcode_district street = some q →
      searchO q = .ok (some resp) →
      parse_api_search_response resp = some parsed →
      parsed.area_codes = [] →
      search_properties area query postcode_district street searchO valO =
        mock_fallback area query) := by
  refine ⟨?_, ?_, ?_, ?_⟩
  · intro h
    simp [search_properties, h]
  · intro h
    simp [search_properties, h]
  · intro h hne
    simp [search_properties, h, hne]
  · intro hq hs hp hcodes
    have hb : ∀ {β : Type} (x : Option PyVal) (f : Option PyVal → Except String β),
        ((Except.ok x : Except String (Option PyVal)) >>= f) = f x := fun _ _ => rfl
    have happ : search_properties_from_api area query postcode_district street searchO valO =
        .ok [] := by
      cases ht : resp.truthy
      · simp only [search_properties_from_api, hq, hs]
        rw [hb]
        simp [ht]
      · simp only [search_properties_from_api, hq, hs]
        rw [hb]
        simp [ht, hp, hcodes, fetch_valuations]
    simp [search_properties, happ]

/-- C5 witness: a raising live path falls back to the mock table row for
"London", and a zero-area-code search response for a table label falls
back likewise. -/
theorem c5_witness :
    search_properties "London" "" "" "" (fun _ => .error "boom")
        (fun _ => .error "boom") = mock_fallback "London" "" ∧
    search_properties "London" "" "" "" (fun _ => .ok (some (.dict [("data", .list [])])))
        (fun _ => .ok Option.none) = mock_fallback "London" "" := by
  constructor
  · exact (c5_mock_fallback_amended "London" "" "" "" (fun _ => .error "boom")
      (fun _ => .error "boom") "boom" [] (.byAreaName "London") (.str "") ⟨.str "", .str "",
        [], [], [], [], []⟩).1 rfl
  · exact (c5_mock_fallback_amended "London" "" "" ""
      (fun _ => .ok (some (.dict [("data", .list [])])))
      (fun _ => .ok Option.none) "boom" [] (.byAreaName "London")
      (.dict [("data", .list [])])
      ⟨.str "", .str "", [], [], [], [], []⟩).2.2.2 rfl rfl (by rfl) rfl

/-- C6: the validator rejects (with a non-empty message) every free-text
query matching the full UK postcode pattern and every one-sided
district/street pair, and accepts (returns no error) every other input,
i.e. a non-postcode query together with a both-or-neither
district/street pair. -/
theorem c6_validate_search_input (query postcode_district street_name : String) :
    (is_full_postcode query = true →
      ∃ m, validate_search_input query postcode_district street_name = some m ∧ m ≠ "") ∧
    ((postcode_district ≠ "" ∧ street_name = "") ∨
        (street_name ≠ "" ∧ postcode_district = "") →
      ∃ m, validate_search_input query postcode_district street_name = some m ∧ m ≠ "") ∧
    (is_full_postcode query = false → (postcode_district = "" ↔ street_name = "") →
      validate_search_input query postcode_district street_name = Option.none) := by
  refine ⟨?_, ?_, ?_⟩
  · intro hfp
    have hq : query ≠ "" := by
      intro h
      rw [h] at hfp
      exact absurd hfp (by decide)
    refine ⟨full_postcode_error, ?_, by decide⟩
    simp [validate_search_input, hq, hfp]
  · intro hds
    by_cases hq : query != "" && is_full_postcode query
    · exact ⟨full_postcode_error, by simp [validate_search_input, hq], by decide⟩
    · refine ⟨street_pair_error, ?_, by decide⟩
      rcases hds with ⟨h1, h2⟩ | ⟨h1, h2⟩ <;>
        simp [validate_search_input, hq, h1, h2]
  · intro hfp hiff
    by_cases hd : postcode_district = ""
    · have hs : street_name = "" := hiff.mp hd
      simp [validate_search_input, hfp, hd, hs]
    · have hs : street_name ≠ "" := fun h => hd (hiff.mpr h)
      simp [validate_search_input, hfp, hd, hs]

/-- C6 witness: the spec's own examples: full postcodes "SS0 0BW" and
"NG8 1BB" are rejected, a one-sided district is rejected, while
"Brixton" and the bare district "SW1A" pass. -/
theorem c6_witness :
    (∃ m, validate_search_input "SS0 0BW" "" "" = some m ∧ m ≠ "") ∧
    (∃ m, validate_search_input "NG8 1BB" "" "" = some m ∧ m ≠ "") ∧
    (∃ m, validate_search_input "Brixton" "SW1A" "" = some m ∧ m ≠ "") ∧
    validate_search_input "Brixton" "" "" = Option.none ∧
    validate_search_input "SW1A" "" "" = Option.none := by
  refine ⟨?_, ?_, ?_, ?_, ?_⟩
  · exact (c6_validate_search_input "SS0 0BW" "" "").1 (by decide)
  · exact (c6_validate_search_input "NG8 1BB" "" "").1 (by decide)
  · exact (c6_validate_search_input "Brixton" "SW1A" "").2.1 (Or.inl ⟨by decide, rfl⟩)
  · exact (c6_validate_search_input "Brixton" "" "").2.2 (by decide) (by decide)
  · exact (c6_validate_search_input "SW1A" "" "").2.2 (by decide) (by decide)

theorem pkey_le_refl (a : PKey) : a.le a = true := by
  cases a <;> simp [PKey.le]

/-- C7 counterexample: under "Current Price: High to Low" a record
missing the current price (keyed `0`) ties with a record priced `0`, and
the stable sort leaves the keyless record above the keyed one — so
records lacking the sort key do not always end up at the bottom. -/
theorem c7_counterexample :
    sort_properties [recNoPrice, recPrice 0] "Current Price: High to Low" =
      [recNoPrice, recPrice 0] ∧
    recNoPrice.current_price = Option.none ∧
    (recPrice 0).current_price = some 0 := ⟨rfl, rfl, rfl⟩

/-- C7 as amended: `sort_properties` permutes its input and is stable
(chains of records with tied keys survive as sublists); under "Default"
every priced record is ordered before every unpriced one and each group
keeps its original order; ascending options key missing prices as
infinity and descending options as `0`; consequently, provided every
present price is positive, records lacking the sort key end up after
all keyed records regardless of direction (with a price of `0` or below,
a tie with the missing-key sentinel is possible and stability decides);
and the spec's worked example sorts as stated. -/
theorem c7_sort_properties_amended (l c : List PropRecord) (opt : String) :
    ((sort_properties l opt).Perm l) ∧
    (List.Sublist c l → c.Pairwise (sortTied opt) → List.Sublist c (sort_properties l opt)) ∧
    ((sort_properties l "Default").Pairwise
      (fun a b => ¬(a.current_price = Option.none ∧ b.current_price ≠ Option.none))) ∧
    (List.Sublist (l.filter (fun p => !p.current_price.isNone)) (sort_properties l "Default")) ∧
    (List.Sublist (l.filter (fun p => p.current_price.isNone)) (sort_properties l "Default")) ∧
    (∀ p : PropRecord, p.current_price = Option.none →
      currentKeyAsc p = PKey.inf ∧ currentKeyDesc p = 0) ∧
    (∀ p : PropRecord, p.future_price = Option.none →
      futureKeyAsc p = PKey.inf ∧ futureKeyDesc p = 0) ∧
    ((∀ p ∈ l, ∀ v : Int, p.current_price = some v → 0 < v) →
      ((sort_properties l "Current Price: Low to High").Pairwise
        (fun a b => ¬(a.current_price = Option.none ∧ b.current_price ≠ Option.none)) ∧
       (sort_properties l "Current Price: High to Low").Pairwise
        (fun a b => ¬(a.current_price = Option.none ∧ b.current_price ≠ Option.none)))) ∧
    ((∀ p ∈ l, ∀ v : Int, p.future_price = some v → 0 < v) →
      ((sort_properties l "Future Price: Low to High").Pairwise
        (fun a b => ¬(a.future_price = Option.none ∧ b.future_price ≠ Option.none)) ∧
       (sort_properties l "Future Price: High to Low").Pairwise
        (fun a b => ¬(a.future_price = Option.none ∧ b.future_price ≠ Option.none)))) ∧
    (sort_properties [recNoPrice, recPrice 500000, recPrice 300000]
        "Current Price: Low to High" =
      [recPrice 300000, recPrice 500000, recNoPrice]) ∧
    (sort_properties [recNoPrice, recPrice 500000, recPrice 300000] "Default" =
      [recPrice 500000, recPrice 300000, recNoPrice]) := by
  refine ⟨?_, ?_, ?_, ?_, ?_, ?_, ?_, ?_, ?_, rfl, rfl⟩
  · unfold sort_properties
    split_ifs <;> first
      | exact List.Perm.refl _
      | exact List.perm_insertionSort _ _
  · intro hsub htied
    unfold sort_properties
    split_ifs with h0 h1 h2 h3 h4 h5
    · exact hsub
    · have hopt : opt = "Default" := by simpa using h1
      subst hopt
      refine List.sublist_insertionSort (htied.imp ?_) hsub
      intro a b hab
      have hab2 : defaultKey a = defaultKey b := by simpa [sortTied] using hab
      simp only [keyRel, hab2]
      exact pkey_le_refl _
    · have hopt : opt = "Current Price: Low to High" := by simpa using h2
      subst hopt
      refine List.sublist_insertionSort (htied.imp ?_) hsub
      intro a b hab
      have hab2 : currentKeyAsc a = currentKeyAsc b := by simpa [sortTied] using hab
      simp only [keyRel, hab2]
      exact pkey_le_refl _
    · have hopt : opt = "Current Price: High to Low" := by simpa using h3
      subst hopt
      refine List.sublist_insertionSort (htied.imp ?_) hsub
      intro a b hab
      have hab2 : currentKeyDesc a = currentKeyDesc b := by simpa [sortTied] using hab
      simp only [keyRelFlip, hab2]
      exact le_refl _
    · have hopt : opt = "Future Price: Low to High" := by simpa using h4
      subst hopt
      refine List.sublist_insertionSort (htied.imp ?_) hsub
      intro a b hab
      have hab2 : futureKeyAsc a = futureKeyAsc b := by simpa [sortTied] using hab
      simp only [keyRel, hab2]
      exact pkey_le_refl _
    · have hopt : opt = "Future Price: High to Low" := by simpa using h5
      subst hopt
      refine List.sublist_insertionSort (htied.imp ?_) hsub
      intro a b hab
      have hab2 : futureKeyDesc a = futureKeyDesc b := by simpa [sortTied] using hab
      simp only [keyRelFlip, hab2]
      exact le_refl _
    · exact hsub
  · rw [sort_properties_default_eq]
    refine (List.sorted_insertionSort (keyRel defaultKey) l).imp ?_
    intro a b hr
    rintro ⟨ha, hb⟩
    cases hb2 : b.current_price with
    | none => exact hb hb2
    | some v =>
      simp only [keyRel, defaultKey, ha, hb2] at hr
      simp [PKey.le] at hr
  · rw [sort_properties_default_eq]
    refine List.sublist_insertionSort ?_ (List.filter_sublist l)
    refine List.pairwise_of_forall_mem_list ?_
    intro a ha b hb
    have ha2 := List.of_mem_filter ha
    have hb2 := List.of_mem_filter hb
    simp only [Bool.not_eq_true'] at ha2 hb2
    simp only [keyRel, defaultKey, ha2, hb2]
    exact pkey_le_refl _
  · rw [sort_properties_default_eq]
    refine List.sublist_insertionSort ?_ (List.filter_sublist l)
    refine List.pairwise_of_forall_mem_list ?_
    intro a ha b hb
    have ha2 := List.of_mem_filter ha
    have hb2 := List.of_mem_filter hb
    simp only [keyRel, defaultKey, ha2, hb2]
    exact pkey_le_refl _
  · intro p hp
    constructor <;> simp [currentKeyAsc, currentKeyDesc, keyAscOf, keyDescOf, hp]
  · intro p hp
    constructor <;> simp [futureKeyAsc, futureKeyDesc, keyAscOf, keyDescOf, hp]
  · intro hpos
    constructor
    · rw [sort_properties_curAsc_eq]
      refine (List.sorted_insertionSort (keyRel currentKeyAsc) l).imp_of_mem ?_
      intro a b ha hb hr
      rintro ⟨hanone, hbne⟩
      cases hb2 : b.current_price with
      | none => exact hbne hb2
      | some v =>
        have hv : 0 < v :=
          hpos b ((List.mem_insertionSort _).mp hb) v hb2
        simp only [keyRel, currentKeyAsc, hanone, hb2, keyAscOf] at hr
        rw [if_neg (show ¬v = 0 by omega)] at hr
        simp [PKey.le] at hr
    · rw [sort_properties_curDesc_eq]
      refine (List.sorted_insertionSort (keyRelFlip currentKeyDesc) l).imp_of_mem ?_
      intro a b ha hb hr
      rintro ⟨hanone, hbne⟩
      cases hb2 : b.current_price with
      | none => exact hbne hb2
      | some v =>
        have hv : 0 < v :=
          hpos b ((List.mem_insertionSort _).mp hb) v hb2
        simp only [keyRelFlip, currentKeyDesc, hanone, hb2, keyDescOf] at hr
        omega
  · intro hpos
    constructor
    · rw [sort_properties_futAsc_eq]
      refine (List.sorted_insertionSort (keyRel futureKeyAsc) l).imp_of_mem ?_
      intro a b ha hb hr
      rintro ⟨hanone, hbne⟩
      cases hb2 : b.future_price with
      | none => exact hbne hb2
      | some v =>
        have hv : 0 < v :=
          hpos b ((List.mem_insertionSort _).mp hb) v hb2
        simp only [keyRel, futureKeyAsc, hanone, hb2, keyAscOf] at hr
        rw [if_neg (show ¬v = 0 by omega)] at hr
        simp [PKey.le] at hr
    · rw [sort_properties_futDesc_eq]
      refine (List.sorted_insertionSort (keyRelFlip futureKeyDesc) l).imp_of_mem ?_
      intro a b ha hb hr
      rintro ⟨hanone, hbne⟩
      cases hb2 : b.future_price with
      | none => exact hbne hb2
      | some v =>
        have hv : 0 < v :=
          hpos b ((List.mem_insertionSort _).mp hb) v hb2
        simp only [keyRelFlip, futureKeyDesc, hanone, hb2, keyDescOf] at hr
        omega

/-- C7 witness: the bottom-placement consequence at a concrete list with
positive present prices, and stability at a concrete tied chain. -/
theorem c7_witness :
    (sort_properties [recNoPrice, recPrice 300000] "Current Price: Low to High").Pairwise
      (fun a b => ¬(a.current_price = Option.none ∧ b.current_price ≠ Option.none)) ∧
    List.Sublist [recPrice 500000, recPrice 300000]
      (sort_properties [recNoPrice, recPrice 500000, recPrice 300000] "Default") := by
  constructor
  · refine ((c7_sort_properties_amended [recNoPrice, recPrice 300000] [] "x").2.2.2.2.2.2.2.1
      ?_).1
    intro p hp v hv
    rcases List.mem_cons.mp hp with h | h
    · subst h
      simp [recNoPrice] at hv
    · rcases List.mem_cons.mp h with h | h
      · subst h
        simp [recPrice] at hv
        omega
      · simp at h
  · refine (c7_sort_properties_amended [recNoPrice, recPrice 500000, recPrice 300000]
      [recPrice 500000, recPrice 300000] "Default").2.1 ?_ ?_
    · exact List.Sublist.cons _ (List.Sublist.refl _)
    · simp [List.pairwise_cons, sortTied, defaultKey, recPrice]

/-- C10: a present current price of `0` is keyed as infinity by the
ascending sort (Python `or` treats `0` as falsy), so in "Current Price:
Low to High" output no record priced `0` ever precedes a record with a
positive price; yet under "Default" the same record counts as priced and
is never preceded by an unpriced record. -/
theorem c10_zero_price_keyed_infinite (l : List PropRecord) (p : PropRecord) :
    (p.current_price = some 0 → currentKeyAsc p = PKey.inf) ∧
    ((sort_properties l "Current Price: Low to High").Pairwise
      (fun a b => ¬(a.current_price = some 0 ∧ ∃ v, b.current_price = some v ∧ 0 < v))) ∧
    ((sort_properties l "Default").Pairwise
      (fun a b => ¬(a.current_price = Option.none ∧ b.current_price = some 0))) := by
  refine ⟨?_, ?_, ?_⟩
  · intro hp
    simp [currentKeyAsc, keyAscOf, hp]
  · rw [sort_properties_curAsc_eq]
    refine (List.sorted_insertionSort (keyRel currentKeyAsc) l).imp ?_
    intro a b hr
    rintro ⟨ha, v, hb, hv⟩
    simp only [keyRel, currentKeyAsc, ha, hb, keyAscOf] at hr
    rw [if_neg (show ¬v = 0 by omega)] at hr
    simp [PKey.le] at hr
  · rw [sort_properties_default_eq]
    refine (List.sorted_insertionSort (keyRel defaultKey) l).imp ?_
    intro a b hr
    rintro ⟨ha, hb⟩
    simp only [keyRel, defaultKey, ha, hb] at hr
    simp [PKey.le] at hr

/-- C10 witness: the record priced `0` is keyed infinite, and the
ascending pairwise consequence holds on a concrete list. -/
theorem c10_witness :
    currentKeyAsc (recPrice 0) = PKey.inf ∧
    (sort_properties [recPrice 0, recPrice 5] "Current Price: Low to High").Pairwise
      (fun a b => ¬(a.current_price = some 0 ∧ ∃ v, b.current_price = some v ∧ 0 < v)) := by
  constructor
  · exact (c10_zero_price_keyed_infinite [] (recPrice 0)).1 rfl
  · exact (c10_zero_price_keyed_infinite [recPrice 0, recPrice 5] (recPrice 0)).2.1
